import Mathlib

/-!
Shallow embedding of the edeCarAnalytics repository's ownership-cost model.

Monetary amounts are embedded as rationals (ℚ): the Python sources compute
with exact integer-valued constants and `numpy.linspace` points, and every
claim is stated at the level of exact arithmetic.  Python's raising division
(`ZeroDivisionError` on a zero denominator) is embedded as `Except`-valued
code; `round(x, -1)` (round to nearest ten, ties to even) is embedded
explicitly as `roundNearest10`.
-/

namespace CarAnalytics

/-- Error kinds of the ownership-cost model (spec §7). -/
inductive ModelError where
  | invalidParameter
  | divisionUndefined
deriving DecidableEq, Repr

/-- A vehicle's cost structure (spec §3 `VehicleCostProfile`): named fixed
components plus one swept variable scaled by `variable_multiplier`. -/
structure VehicleCostProfile where
  fixed_components : List (String × ℚ)
  variable_multiplier : ℚ
deriving DecidableEq, Repr

/-- Sum of a profile's fixed components. -/
def sumFixed (p : VehicleCostProfile) : ℚ :=
  (p.fixed_components.map Prod.snd).sum

/-- `computeTotal(profile, variableValue)`: the total-cost operation that every
script in the repository instantiates inline
(`total = fixed + multiplier * swept_value`). -/
def computeTotal (p : VehicleCostProfile) (v : ℚ) : ℚ :=
  sumFixed p + p.variable_multiplier * v

/-- Modelled from the spec: `computeTotal` with the input validation the spec
requires (§4.1: non-negative `variableValue` and non-negative fixed
components, otherwise `InvalidParameter`).  The source scripts contain no
such validation; this definition exists to compare the spec's words with the
code's behaviour. -/
def computeTotalChecked (p : VehicleCostProfile) (v : ℚ) : Except ModelError ℚ :=
  if 0 ≤ v ∧ ∀ c ∈ p.fixed_components, 0 ≤ c.2 then
    Except.ok (computeTotal p v)
  else
    Except.error ModelError.invalidParameter

/-- The k-th of `num` evenly spaced points from `lo` to `hi`
(`numpy.linspace`): `lo + k * (hi - lo) / (num - 1)`. -/
def linspacePoint (lo hi : ℚ) (num : ℕ) (k : ℕ) : ℚ :=
  lo + k * (hi - lo) / ((num : ℚ) - 1)

/-- `numpy.linspace(lo, hi, num)` as a list of rationals. -/
def linspace (lo hi : ℚ) (num : ℕ) : List ℚ :=
  (List.range num).map (linspacePoint lo hi num)

/-- A `(min, max)` sweep range for one vehicle's variable component. -/
structure ParamRange where
  min : ℚ
  max : ℚ
deriving DecidableEq, Repr

/-- One cell of the spec's `buildGrid(profileA, rangeA, profileB, rangeB, g)`:
`computeTotal(profileB, cols[j]) - computeTotal(profileA, rows[i])`, where the
axes are the linspace samples of the two ranges. -/
def buildGridCell (A : VehicleCostProfile) (rA : ParamRange)
    (B : VehicleCostProfile) (rB : ParamRange) (g : ℕ) (i j : ℕ) : ℚ :=
  computeTotal B (linspacePoint rB.min rB.max g j)
    - computeTotal A (linspacePoint rA.min rA.max g i)

/-! ### car_analyze_2.py -/

namespace Script2

/-- `jaguar_fixed = 100_000 + 33_000 + 36_000 + 8_000`. -/
def jaguar_fixed : ℚ := 100000 + 33000 + 36000 + 8000

/-- `tesla_fixed = 30_000 + 6_000 + 2_150 + 15_000`. -/
def tesla_fixed : ℚ := 30000 + 6000 + 2150 + 15000

/-- `granularity = 6`. -/
def granularity : ℕ := 6

/-- `jag_repairs = np.linspace(20_000, 80_000, granularity)`. -/
def jag_repairs : List ℚ := linspace 20000 80000 granularity

/-- `tesla_depreciations = np.linspace(80_000, 220_000, granularity)`. -/
def tesla_depreciations : List ℚ := linspace 80000 220000 granularity

/-- The matrix loop: `matrix[i, j] = jaguar_total - tesla_total` with
`tesla_total = tesla_fixed + tesla_depreciations[i]` and
`jaguar_total = jaguar_fixed + 3 * jag_repairs[j]`. -/
def matrixCell (i j : ℕ) : ℚ :=
  let tesla_total := tesla_fixed + linspacePoint 80000 220000 granularity i
  let jaguar_total := jaguar_fixed + 3 * linspacePoint 20000 80000 granularity j
  jaguar_total - tesla_total

/-- The per-cell heatmap annotation:
`"Jaguar cheaper" if diff < 0 else "Tesla cheaper"`. -/
def cellLabel (diff : ℚ) : String :=
  if diff < 0 then "Jaguar cheaper" else "Tesla cheaper"

/-- The numeric results of `show_detailed_analysis(tesla_depreciation,
jaguar_repair)`: `(tesla_total, jaguar_total, difference)`. -/
def show_detailed_analysis (tesla_depreciation jaguar_repair : ℚ) : ℚ × ℚ × ℚ :=
  let tesla_total := tesla_fixed + tesla_depreciation
  let jaguar_total := jaguar_fixed + 3 * jaguar_repair
  (tesla_total, jaguar_total, jaguar_total - tesla_total)

/-- The winner text inside `show_detailed_analysis`:
`"Tesla is cheaper" if difference > 0 else "Jaguar is cheaper"`. -/
def winnerText (difference : ℚ) : String :=
  if difference > 0 then "Tesla is cheaper" else "Jaguar is cheaper"

/-- The Tesla side of car_analyze_2.py as a `VehicleCostProfile`: fixed
components Insurance 30 000, Charging 6 000, Refinancing Fee 2 150,
Repairs 15 000; swept variable = 3-year depreciation, multiplier 1. -/
def teslaProfile : VehicleCostProfile :=
  { fixed_components :=
      [("Insurance", 30000), ("Charging", 6000),
       ("Refinancing Fee", 2150), ("Repairs", 15000)],
    variable_multiplier := 1 }

/-- The Jaguar side of car_analyze_2.py as a `VehicleCostProfile`: fixed
components Depreciation 100 000, Interest 33 000, Insurance 36 000,
Charging 8 000; swept variable = annual repair cost, multiplier 3. -/
def jaguarProfile : VehicleCostProfile :=
  { fixed_components :=
      [("Depreciation", 100000), ("Interest", 33000),
       ("Insurance", 36000), ("Charging", 8000)],
    variable_multiplier := 3 }

/-- The Tesla sweep range `(80_000, 220_000)`. -/
def teslaRange : ParamRange := ⟨80000, 220000⟩

/-- The Jaguar sweep range `(20_000, 80_000)`. -/
def jaguarRange : ParamRange := ⟨20000, 80000⟩

end Script2

/-! ### car_analyzer.py -/

namespace Analyzer

/-- The fixed part of every Jaguar scenario in car_analyzer.py:
`depreciation + interest + insurance + charging` from `jaguar_base`
(`80_000 + 33_000 + 12_000 * 3 + 8_000`). -/
def jaguar_base_fixed : ℚ := 80000 + 33000 + 12000 * 3 + 8000

/-- The `jaguar_costs` loop body: `total = jaguar_base_fixed + repairs`,
where `repairs` is the scenario's 3-year repair amount
(`annual * 3` in `repair_scenarios`). -/
def jaguar_scenario_total (repairs : ℚ) : ℚ := jaguar_base_fixed + repairs

/-- The Jaguar of car_analyzer.py as a `VehicleCostProfile`: its fixed
components with multiplier 3 on the swept annual repair cost. -/
def jaguarBaseProfile : VehicleCostProfile :=
  { fixed_components :=
      [("Depreciation", 80000), ("Interest", 33000),
       ("Insurance", 36000), ("Charging", 8000)],
    variable_multiplier := 3 }

end Analyzer

/-! ### car_analyze_streamlit.py and car_analyze_altair.py (shared core) -/

namespace Dash

/-- The sidebar inputs of the streamlit/altair dashboards: granularity,
the two sweep ranges, the per-category fixed-cost inputs (including the
purchase prices), and the scenario selected for detailed analysis. -/
structure Inputs where
  granularity : ℕ
  jag_min : ℚ
  jag_max : ℚ
  tesla_min : ℚ
  tesla_max : ℚ
  jag_purchase : ℚ
  jag_depreciation : ℚ
  jag_interest : ℚ
  jag_insurance : ℚ
  jag_charging : ℚ
  tesla_purchase : ℚ
  tesla_insurance : ℚ
  tesla_charging : ℚ
  tesla_refinancing : ℚ
  tesla_repairs : ℚ
  selected_tesla_dep : ℚ
  selected_jaguar_rep : ℚ
deriving DecidableEq, Repr

/-- `jaguar_fixed = jag_depreciation + jag_interest + jag_insurance +
jag_charging` (the purchase price is deliberately excluded). -/
def jaguar_fixed (s : Inputs) : ℚ :=
  s.jag_depreciation + s.jag_interest + s.jag_insurance + s.jag_charging

/-- `tesla_fixed = tesla_insurance + tesla_charging + tesla_refinancing +
tesla_repairs` (the purchase price is deliberately excluded). -/
def tesla_fixed (s : Inputs) : ℚ :=
  s.tesla_insurance + s.tesla_charging + s.tesla_refinancing + s.tesla_repairs

/-- Round a rational to the nearest integer, ties to even: the behaviour of
Python's `round` on the float values flowing through the dashboards. -/
def roundHalfEven (q : ℚ) : ℤ :=
  let f := Int.floor q
  let r := q - f
  if r < 1 / 2 then f
  else if 1 / 2 < r then f + 1
  else if f % 2 = 0 then f else f + 1

/-- `round(x, -1)`: round to the nearest multiple of ten, ties to even. -/
def roundNearest10 (q : ℚ) : ℚ := 10 * roundHalfEven (q / 10)

/-- The dashboard matrix loop:
`matrix[i, j] = round(jaguar_total - tesla_total, -1)` with
`tesla_total = tesla_fixed + tesla_depreciations[i]` and
`jaguar_total = jaguar_fixed + 3 * jag_repairs[j]`, the axes being
`np.linspace(tesla_min, tesla_max, granularity)` and
`np.linspace(jag_min, jag_max, granularity)`. -/
def matrixCell (s : Inputs) (i j : ℕ) : ℚ :=
  let tesla_total := tesla_fixed s + linspacePoint s.tesla_min s.tesla_max s.granularity i
  let jaguar_total := jaguar_fixed s + 3 * linspacePoint s.jag_min s.jag_max s.granularity j
  roundNearest10 (jaguar_total - tesla_total)

/-- `tesla_total = tesla_fixed + selected_tesla_dep`. -/
def tesla_total (s : Inputs) : ℚ := tesla_fixed s + s.selected_tesla_dep

/-- `jaguar_total = jaguar_fixed + 3 * selected_jaguar_rep`. -/
def jaguar_total (s : Inputs) : ℚ := jaguar_fixed s + 3 * s.selected_jaguar_rep

/-- `difference = jaguar_total - tesla_total`. -/
def difference (s : Inputs) : ℚ := jaguar_total s - tesla_total s

/-- One row of a dashboard cost-breakdown table: category, raw amount, and
the percentage cell (`none` embeds the literal string `"N/A"`). -/
structure BreakdownRow where
  category : String
  amount : ℚ
  percentage : Option ℚ
deriving DecidableEq, Repr

/-- The rows of the `tesla_breakdown` table, in source order.  Every computed
percentage divides by this vehicle's own `tesla_total`; the Purchase Price
row's percentage is the literal `"N/A"` and the Total row's the literal
`"100%"`. -/
def teslaRows (s : Inputs) : List BreakdownRow :=
  [⟨"Purchase Price", s.tesla_purchase, none⟩,
   ⟨"Depreciation", s.selected_tesla_dep, some (s.selected_tesla_dep / tesla_total s * 100)⟩,
   ⟨"Insurance", s.tesla_insurance, some (s.tesla_insurance / tesla_total s * 100)⟩,
   ⟨"Charging", s.tesla_charging, some (s.tesla_charging / tesla_total s * 100)⟩,
   ⟨"Refinancing Fee", s.tesla_refinancing, some (s.tesla_refinancing / tesla_total s * 100)⟩,
   ⟨"Repairs", s.tesla_repairs, some (s.tesla_repairs / tesla_total s * 100)⟩,
   ⟨"Total", tesla_total s, some 100⟩]

/-- The rows of the `jaguar_breakdown` table, in source order, with
`jaguar_repairs_3yr = 3 * selected_jaguar_rep`; percentages divide by this
vehicle's own `jaguar_total`. -/
def jaguarRows (s : Inputs) : List BreakdownRow :=
  [⟨"Purchase Price", s.jag_purchase, none⟩,
   ⟨"Depreciation", s.jag_depreciation, some (s.jag_depreciation / jaguar_total s * 100)⟩,
   ⟨"Interest", s.jag_interest, some (s.jag_interest / jaguar_total s * 100)⟩,
   ⟨"Insurance", s.jag_insurance, some (s.jag_insurance / jaguar_total s * 100)⟩,
   ⟨"Charging", s.jag_charging, some (s.jag_charging / jaguar_total s * 100)⟩,
   ⟨"Repairs (3 yrs)", 3 * s.selected_jaguar_rep, some (3 * s.selected_jaguar_rep / jaguar_total s * 100)⟩,
   ⟨"Total", jaguar_total s, some 100⟩]

/-- `tesla_breakdown`: building the table evaluates
`component / tesla_total * 100` for each component, so a zero total makes the
first such division raise (Python `ZeroDivisionError`); otherwise the table
rows are produced. -/
def tesla_breakdown (s : Inputs) : Except ModelError (List BreakdownRow) :=
  if tesla_total s = 0 then Except.error ModelError.divisionUndefined
  else Except.ok (teslaRows s)

/-- `jaguar_breakdown`: as `tesla_breakdown`, dividing by `jaguar_total`. -/
def jaguar_breakdown (s : Inputs) : Except ModelError (List BreakdownRow) :=
  if jaguar_total s = 0 then Except.error ModelError.divisionUndefined
  else Except.ok (jaguarRows s)

/-- `tesla_display_total` of the altair pie chart:
the five ownership components, purchase price excluded. -/
def tesla_display_total (s : Inputs) : ℚ :=
  s.selected_tesla_dep + s.tesla_insurance + s.tesla_charging
    + s.tesla_refinancing + s.tesla_repairs

/-- The `Percentage` column of the altair `tesla_pie_df`, each entry dividing
by `tesla_display_total`. -/
def teslaPiePercents (s : Inputs) : List ℚ :=
  [s.selected_tesla_dep / tesla_display_total s * 100,
   s.tesla_insurance / tesla_display_total s * 100,
   s.tesla_charging / tesla_display_total s * 100,
   s.tesla_refinancing / tesla_display_total s * 100,
   s.tesla_repairs / tesla_display_total s * 100]

/-- Building the altair `tesla_pie_df` divides by `tesla_display_total`,
raising when it is zero. -/
def tesla_pie_df (s : Inputs) : Except ModelError (List ℚ) :=
  if tesla_display_total s = 0 then Except.error ModelError.divisionUndefined
  else Except.ok (teslaPiePercents s)

/-- The Tesla profile induced by the dashboard inputs (multiplier 1 on the
swept depreciation). -/
def teslaProfileOf (s : Inputs) : VehicleCostProfile :=
  { fixed_components :=
      [("Insurance", s.tesla_insurance), ("Charging", s.tesla_charging),
       ("Refinancing Fee", s.tesla_refinancing), ("Repairs", s.tesla_repairs)],
    variable_multiplier := 1 }

/-- The Jaguar profile induced by the dashboard inputs (multiplier 3 on the
swept annual repair cost). -/
def jaguarProfileOf (s : Inputs) : VehicleCostProfile :=
  { fixed_components :=
      [("Depreciation", s.jag_depreciation), ("Interest", s.jag_interest),
       ("Insurance", s.jag_insurance), ("Charging", s.jag_charging)],
    variable_multiplier := 3 }

/-- The dashboards' default sidebar values, with the default mid-grid
scenario selection. -/
def defaultInputs : Inputs :=
  { granularity := 6,
    jag_min := 20000, jag_max := 80000,
    tesla_min := 80000, tesla_max := 220000,
    jag_purchase := 700000, jag_depreciation := 70000, jag_interest := 33000,
    jag_insurance := 120000, jag_charging := 8000,
    tesla_purchase := 700000, tesla_insurance := 60000, tesla_charging := 6000,
    tesla_refinancing := 2150, tesla_repairs := 15000,
    selected_tesla_dep := 164000, selected_jaguar_rep := 56000 }

/-- Dashboard inputs with every monetary field zero: both totals are zero,
so the breakdown divisions have a zero denominator. -/
def zeroInputs : Inputs :=
  { granularity := 6,
    jag_min := 0, jag_max := 0, tesla_min := 0, tesla_max := 0,
    jag_purchase := 0, jag_depreciation := 0, jag_interest := 0,
    jag_insurance := 0, jag_charging := 0,
    tesla_purchase := 0, tesla_insurance := 0, tesla_charging := 0,
    tesla_refinancing := 0, tesla_repairs := 0,
    selected_tesla_dep := 0, selected_jaguar_rep := 0 }

/-- Default inputs except `jag_interest = 33 003`: the exact matrix cell is
then not a multiple of ten, so the dashboards' rounding visibly changes it. -/
def roundingInputs : Inputs :=
  { defaultInputs with jag_interest := 33003 }

/-- Default inputs except a negative Jaguar insurance amount and an inverted
Jaguar sweep range (`min > max`): invalid per the spec, yet the code
computes with them. -/
def negInputs : Inputs :=
  { defaultInputs with jag_insurance := -120000, jag_min := 80000, jag_max := 20000 }

end Dash

/-- Runs of `show_detailed_analysis`, one per click: the numeric outputs of a
sequence of calls, in call order. -/
def analysisRuns (calls : List (ℚ × ℚ)) : List (ℚ × ℚ × ℚ) :=
  calls.map fun c => Script2.show_detailed_analysis c.1 c.2

end CarAnalytics

namespace CarAnalytics

theorem sum5_div_mul (t a b c d e : ℚ) (h0 : t ≠ 0) (hsum : a + b + c + d + e = t) :
    a / t * 100 + b / t * 100 + c / t * 100 + d / t * 100 + e / t * 100 = 100 := by
  field_simp
  linarith

/-- C1: for every valid profile (non-negative fixed components) and every
`variableValue ≥ 0`, `computeTotal` equals `sum(fixed_components) +
variable_multiplier * variableValue` — linear with slope
`variable_multiplier` and intercept `sum(fixed_components)` — and the code's
inline totals instantiate it: `tesla_total = tesla_fixed + tesla_dep`
(multiplier 1), `jaguar_total = jaguar_fixed + 3 * jag_rep` (multiplier 3),
and the car_analyzer.py `jaguar_costs` loop (multiplier 3 folded into the
scenario's repair amount). -/
theorem computeTotal_linear (p : VehicleCostProfile) (v : ℚ)
    (hp : ∀ c ∈ p.fixed_components, 0 ≤ c.2) (hv : 0 ≤ v) :
    computeTotal p v = sumFixed p + p.variable_multiplier * v
    ∧ (∀ d, Script2.tesla_fixed + d = computeTotal Script2.teslaProfile d)
    ∧ (∀ r, Script2.jaguar_fixed + 3 * r = computeTotal Script2.jaguarProfile r)
    ∧ (∀ a, Analyzer.jaguar_scenario_total (3 * a) = computeTotal Analyzer.jaguarBaseProfile a) := by
  refine ⟨rfl, ?_, ?_, ?_⟩ <;> intro x <;>
    simp [computeTotal, sumFixed, Script2.teslaProfile, Script2.jaguarProfile,
      Script2.tesla_fixed, Script2.jaguar_fixed, Analyzer.jaguar_scenario_total,
      Analyzer.jaguar_base_fixed, Analyzer.jaguarBaseProfile] <;> ring

/-- Witness for C1 at the Tesla profile of car_analyze_2.py and
`variableValue = 3`. -/
theorem computeTotal_linear_witness :
    (∀ c ∈ Script2.teslaProfile.fixed_components, 0 ≤ c.2) ∧ (0 : ℚ) ≤ 3 ∧
    (computeTotal Script2.teslaProfile 3
       = sumFixed Script2.teslaProfile + Script2.teslaProfile.variable_multiplier * 3
     ∧ (∀ d, Script2.tesla_fixed + d = computeTotal Script2.teslaProfile d)
     ∧ (∀ r, Script2.jaguar_fixed + 3 * r = computeTotal Script2.jaguarProfile r)
     ∧ (∀ a, Analyzer.jaguar_scenario_total (3 * a) = computeTotal Analyzer.jaguarBaseProfile a)) :=
  ⟨by decide, by norm_num, computeTotal_linear Script2.teslaProfile 3 (by decide) (by norm_num)⟩

/-- C2: every cell of the car_analyze_2.py matrix is the signed difference
`computeTotal(jaguarProfile, cols[j]) - computeTotal(teslaProfile, rows[i])`
(the Tesla swept over rows, the Jaguar over cols); `show_detailed_analysis`
computes the same difference at the clicked cell's parameters; and a positive
cell is labelled Tesla-cheaper both in the heatmap annotation and in the
detailed-analysis winner text. -/
theorem matrix_sign_convention (i j : ℕ) :
    Script2.matrixCell i j =
      buildGridCell Script2.teslaProfile Script2.teslaRange
        Script2.jaguarProfile Script2.jaguarRange Script2.granularity i j
    ∧ (Script2.show_detailed_analysis
         (linspacePoint 80000 220000 Script2.granularity i)
         (linspacePoint 20000 80000 Script2.granularity j)).2.2 = Script2.matrixCell i j
    ∧ (0 < Script2.matrixCell i j →
        Script2.cellLabel (Script2.matrixCell i j) = "Tesla cheaper"
        ∧ Script2.winnerText (Script2.matrixCell i j) = "Tesla is cheaper") := by
  refine ⟨?_, rfl, ?_⟩
  · simp [Script2.matrixCell, buildGridCell, computeTotal, sumFixed,
      Script2.teslaProfile, Script2.jaguarProfile, Script2.teslaRange, Script2.jaguarRange,
      Script2.tesla_fixed, Script2.jaguar_fixed]
    ring
  · intro h
    constructor
    · simp [Script2.cellLabel, not_lt.mpr h.le]
    · simp [Script2.winnerText, h]

/-- Witness for C2 at cell (0, 5), whose value 283 850 is positive. -/
theorem matrix_sign_convention_witness :
    0 < Script2.matrixCell 0 5
    ∧ (Script2.cellLabel (Script2.matrixCell 0 5) = "Tesla cheaper"
       ∧ Script2.winnerText (Script2.matrixCell 0 5) = "Tesla is cheaper") :=
  ⟨by norm_num [Script2.matrixCell, linspacePoint, Script2.tesla_fixed, Script2.jaguar_fixed,
      Script2.granularity],
   (matrix_sign_convention 0 5).2.2 (by
     norm_num [Script2.matrixCell, linspacePoint, Script2.tesla_fixed, Script2.jaguar_fixed,
       Script2.granularity])⟩

/-- C3: car_analyze_2.py's matrix cells are the exact, unrounded differences
of the two totals, while the streamlit/altair dashboards round each cell to
the nearest ten inside the grid computation — and that rounding genuinely
changes a cell (at `roundingInputs`, 127 853 becomes 127 850). -/
theorem rounding_is_variant_specific (i j : ℕ) (s : Dash.Inputs) :
    Script2.matrixCell i j =
      buildGridCell Script2.teslaProfile Script2.teslaRange
        Script2.jaguarProfile Script2.jaguarRange Script2.granularity i j
    ∧ Dash.matrixCell s i j =
        Dash.roundNearest10
          (buildGridCell (Dash.teslaProfileOf s) ⟨s.tesla_min, s.tesla_max⟩
            (Dash.jaguarProfileOf s) ⟨s.jag_min, s.jag_max⟩ s.granularity i j)
    ∧ Dash.matrixCell Dash.roundingInputs 0 0
        ≠ buildGridCell (Dash.teslaProfileOf Dash.roundingInputs) ⟨80000, 220000⟩
            (Dash.jaguarProfileOf Dash.roundingInputs) ⟨20000, 80000⟩ 6 0 0 := by
  refine ⟨?_, ?_, ?_⟩
  · simp [Script2.matrixCell, buildGridCell, computeTotal, sumFixed,
      Script2.teslaProfile, Script2.jaguarProfile, Script2.teslaRange, Script2.jaguarRange,
      Script2.tesla_fixed, Script2.jaguar_fixed]
    ring
  · have harg :
        (Dash.jaguar_fixed s + 3 * linspacePoint s.jag_min s.jag_max s.granularity j)
          - (Dash.tesla_fixed s + linspacePoint s.tesla_min s.tesla_max s.granularity i)
        = buildGridCell (Dash.teslaProfileOf s) ⟨s.tesla_min, s.tesla_max⟩
            (Dash.jaguarProfileOf s) ⟨s.jag_min, s.jag_max⟩ s.granularity i j := by
      simp [buildGridCell, computeTotal, sumFixed, Dash.teslaProfileOf,
        Dash.jaguarProfileOf, Dash.jaguar_fixed, Dash.tesla_fixed]
      ring
    simp only [Dash.matrixCell]
    rw [harg]
  · have h1 : Dash.matrixCell Dash.roundingInputs 0 0 = 127850 := by
      norm_num [Dash.matrixCell, Dash.roundingInputs, Dash.defaultInputs, Dash.jaguar_fixed,
        Dash.tesla_fixed, linspacePoint, Dash.roundNearest10, Dash.roundHalfEven,
        Int.floor_eq_iff]
    have h2 : buildGridCell (Dash.teslaProfileOf Dash.roundingInputs) ⟨80000, 220000⟩
        (Dash.jaguarProfileOf Dash.roundingInputs) ⟨20000, 80000⟩ 6 0 0 = 127853 := by
      norm_num [buildGridCell, computeTotal, sumFixed, Dash.teslaProfileOf,
        Dash.jaguarProfileOf, Dash.roundingInputs, Dash.defaultInputs, linspacePoint]
    rw [h1, h2]
    norm_num

/-- C4: when a vehicle's total is zero, building its breakdown table divides
by zero and fails (Python's division raises), rather than returning NaN or
infinite percentages. -/
theorem breakdown_zero_total_errors (s : Dash.Inputs)
    (ht : Dash.tesla_total s = 0) (hj : Dash.jaguar_total s = 0) :
    Dash.tesla_breakdown s = Except.error ModelError.divisionUndefined
    ∧ Dash.jaguar_breakdown s = Except.error ModelError.divisionUndefined := by
  simp [Dash.tesla_breakdown, Dash.jaguar_breakdown, ht, hj]

/-- Witness for C4 at the all-zero dashboard inputs. -/
theorem breakdown_zero_total_errors_witness :
    Dash.tesla_total Dash.zeroInputs = 0 ∧ Dash.jaguar_total Dash.zeroInputs = 0
    ∧ (Dash.tesla_breakdown Dash.zeroInputs = Except.error ModelError.divisionUndefined
       ∧ Dash.jaguar_breakdown Dash.zeroInputs = Except.error ModelError.divisionUndefined) :=
  ⟨by norm_num [Dash.tesla_total, Dash.tesla_fixed, Dash.zeroInputs],
   by norm_num [Dash.jaguar_total, Dash.jaguar_fixed, Dash.zeroInputs],
   breakdown_zero_total_errors Dash.zeroInputs
     (by norm_num [Dash.tesla_total, Dash.tesla_fixed, Dash.zeroInputs])
     (by norm_num [Dash.jaguar_total, Dash.jaguar_fixed, Dash.zeroInputs])⟩

/-- C5: for `min < max` and `granularity ≥ 2`, the sampled axis has exactly
`granularity` points, point k equals `min + k*(max-min)/(granularity-1)`, the
first point is exactly `min`, the last exactly `max`; and the concrete range
(20000, 80000) at granularity 6 yields [20000, 32000, 44000, 56000, 68000,
80000]. -/
theorem linspace_even_sampling (lo hi : ℚ) (g k : ℕ)
    (hg : 2 ≤ g) (hlt : lo < hi) (hk : k < g) :
    (linspace lo hi g).length = g
    ∧ (linspace lo hi g)[k]? = some (lo + k * (hi - lo) / ((g : ℚ) - 1))
    ∧ (linspace lo hi g).head? = some lo
    ∧ (linspace lo hi g).getLast? = some hi
    ∧ linspace 20000 80000 6 = [20000, 32000, 44000, 56000, 68000, 80000] := by
  have hg0 : 0 < g := lt_of_lt_of_le (by norm_num) hg
  have hne : ((g : ℚ) - 1) ≠ 0 := by
    have : (2 : ℚ) ≤ (g : ℚ) := by exact_mod_cast hg
    linarith
  have hlen : (linspace lo hi g).length = g := by simp [linspace]
  have hget : ∀ m, m < g → (linspace lo hi g)[m]? =
      some (lo + m * (hi - lo) / ((g : ℚ) - 1)) := by
    intro m hm
    simp [linspace, linspacePoint, List.getElem?_map, List.getElem?_range, hm]
  refine ⟨hlen, hget k hk, ?_, ?_, ?_⟩
  · rw [List.head?_eq_getElem?, hget 0 hg0]
    norm_num
  · rw [List.getLast?_eq_getElem?, hlen, hget (g - 1) (Nat.sub_lt hg0 (by norm_num))]
    have hcast : ((g - 1 : ℕ) : ℚ) = (g : ℚ) - 1 := by
      rw [Nat.cast_sub hg0, Nat.cast_one]
    have hfin : lo + (hi - lo) = hi := by ring
    rw [hcast, mul_div_cancel_left₀ _ hne, hfin]
  · show (List.range 6).map (linspacePoint 20000 80000 6) = _
    norm_num [List.range_succ, linspacePoint]

/-- Witness for C5 on the Jaguar repair range (20000, 80000) with
granularity 6 at k = 0. -/
theorem linspace_even_sampling_witness :
    2 ≤ 6 ∧ (20000 : ℚ) < 80000 ∧ 0 < 6
    ∧ ((linspace 20000 80000 6).length = 6
       ∧ (linspace 20000 80000 6)[0]? = some (20000 + (0 : ℕ) * ((80000 : ℚ) - 20000) / ((6 : ℚ) - 1))
       ∧ (linspace 20000 80000 6).head? = some 20000
       ∧ (linspace 20000 80000 6).getLast? = some 80000
       ∧ linspace 20000 80000 6 = [20000, 32000, 44000, 56000, 68000, 80000]) :=
  ⟨by norm_num, by norm_num, by norm_num,
   linspace_even_sampling 20000 80000 6 0 (by norm_num) (by norm_num) (by norm_num)⟩

/-- C6 counterexample: the code does not validate inputs.  At dashboard
inputs with a negative Jaguar insurance amount and an inverted Jaguar range
(`min > max`), the spec's validated operation rejects with
`InvalidParameter`, but the code's operations happily compute results:
`computeTotal` returns 51 000 and the grid cell computes to 67 850 instead of
failing. -/
theorem no_input_validation_counterexample :
    computeTotalChecked (Dash.jaguarProfileOf Dash.negInputs) 20000
        = Except.error ModelError.invalidParameter
    ∧ Dash.negInputs.jag_insurance < 0
    ∧ Dash.negInputs.jag_max < Dash.negInputs.jag_min
    ∧ computeTotal (Dash.jaguarProfileOf Dash.negInputs) 20000 = 51000
    ∧ Dash.matrixCell Dash.negInputs 0 0 = 67850 := by
  refine ⟨?_, ?_, ?_, ?_, ?_⟩
  · norm_num [computeTotalChecked, Dash.jaguarProfileOf, Dash.negInputs, Dash.defaultInputs]
  · norm_num [Dash.negInputs, Dash.defaultInputs]
  · norm_num [Dash.negInputs, Dash.defaultInputs]
  · norm_num [computeTotal, sumFixed, Dash.jaguarProfileOf, Dash.negInputs, Dash.defaultInputs]
  · norm_num [Dash.matrixCell, Dash.negInputs, Dash.defaultInputs, Dash.jaguar_fixed,
      Dash.tesla_fixed, linspacePoint, Dash.roundNearest10, Dash.roundHalfEven,
      Int.floor_eq_iff]

/-- C6 as amended: no model operation validates its inputs.  Even on a
profile with a negative fixed component the code's `computeTotal` returns the
arithmetic result `sum(fixed) + multiplier * v` — exactly where the spec's
validated operation would fail with `InvalidParameter`. -/
theorem totals_computed_without_validation (p : VehicleCostProfile) (v : ℚ)
    (h : ∃ c ∈ p.fixed_components, c.2 < 0) :
    computeTotal p v = sumFixed p + p.variable_multiplier * v
    ∧ computeTotalChecked p v = Except.error ModelError.invalidParameter := by
  refine ⟨rfl, ?_⟩
  obtain ⟨c, hc, hneg⟩ := h
  have hP : ¬(0 ≤ v ∧ ∀ d ∈ p.fixed_components, 0 ≤ d.2) := by
    rintro ⟨-, hall⟩
    exact absurd (hall c hc) (not_le.mpr hneg)
  simp only [computeTotalChecked, if_neg hP]

/-- Witness for the amended C6 at the Jaguar profile of `negInputs`. -/
theorem totals_computed_without_validation_witness :
    (∃ c ∈ (Dash.jaguarProfileOf Dash.negInputs).fixed_components, c.2 < 0)
    ∧ (computeTotal (Dash.jaguarProfileOf Dash.negInputs) 5
         = sumFixed (Dash.jaguarProfileOf Dash.negInputs)
           + (Dash.jaguarProfileOf Dash.negInputs).variable_multiplier * 5
       ∧ computeTotalChecked (Dash.jaguarProfileOf Dash.negInputs) 5
         = Except.error ModelError.invalidParameter) := by
  have h : ∃ c ∈ (Dash.jaguarProfileOf Dash.negInputs).fixed_components, c.2 < 0 := by
    refine ⟨("Insurance", -120000), ?_, by norm_num⟩
    simp [Dash.jaguarProfileOf, Dash.negInputs, Dash.defaultInputs]
  exact ⟨h, totals_computed_without_validation _ 5 h⟩

/-- C7: for non-zero totals the breakdown tables are produced, every computed
percentage divides that vehicle's own total, the component percentages
(excluding the Purchase Price and Total rows) sum to 100 exactly (hence
within the 0.1 tolerance), and the altair pie divides by a display total that
equals the vehicle's own total, with its percentages summing to 100. -/
theorem breakdown_own_total_sums_100 (s : Dash.Inputs)
    (ht : Dash.tesla_total s ≠ 0) (hj : Dash.jaguar_total s ≠ 0) :
    Dash.tesla_breakdown s = Except.ok (Dash.teslaRows s)
    ∧ Dash.jaguar_breakdown s = Except.ok (Dash.jaguarRows s)
    ∧ (∀ r ∈ (Dash.teslaRows s).dropLast, ∀ q, r.percentage = some q →
        q = r.amount / Dash.tesla_total s * 100)
    ∧ (∀ r ∈ (Dash.jaguarRows s).dropLast, ∀ q, r.percentage = some q →
        q = r.amount / Dash.jaguar_total s * 100)
    ∧ |(((Dash.teslaRows s).dropLast.filterMap Dash.BreakdownRow.percentage).sum) - 100| ≤ 1 / 10
    ∧ |(((Dash.jaguarRows s).dropLast.filterMap Dash.BreakdownRow.percentage).sum) - 100| ≤ 1 / 10
    ∧ Dash.tesla_display_total s = Dash.tesla_total s
    ∧ (Dash.teslaPiePercents s).sum = 100 := by
  have hdisp : Dash.tesla_display_total s = Dash.tesla_total s := by
    simp only [Dash.tesla_display_total, Dash.tesla_total, Dash.tesla_fixed]
    try ring
  have h5t : s.selected_tesla_dep + s.tesla_insurance + s.tesla_charging
      + s.tesla_refinancing + s.tesla_repairs = Dash.tesla_total s := by
    simp only [Dash.tesla_total, Dash.tesla_fixed]
    try ring
  have h5j : s.jag_depreciation + s.jag_interest + s.jag_insurance
      + s.jag_charging + 3 * s.selected_jaguar_rep = Dash.jaguar_total s := by
    simp only [Dash.jaguar_total, Dash.jaguar_fixed]
    try ring
  have hst := sum5_div_mul _ _ _ _ _ _ ht h5t
  have hsj := sum5_div_mul _ _ _ _ _ _ hj h5j
  refine ⟨by simp [Dash.tesla_breakdown, ht], by simp [Dash.jaguar_breakdown, hj],
    ?_, ?_, ?_, ?_, hdisp, ?_⟩
  · intro r hr q hq
    simp [Dash.teslaRows] at hr
    rcases hr with rfl | rfl | rfl | rfl | rfl | rfl <;> simp_all
  · intro r hr q hq
    simp [Dash.jaguarRows] at hr
    rcases hr with rfl | rfl | rfl | rfl | rfl | rfl <;> simp_all
  · have hsum : (((Dash.teslaRows s).dropLast.filterMap Dash.BreakdownRow.percentage).sum)
        = (100 : ℚ) := by
      simp [Dash.teslaRows]
      linarith [hst]
    rw [hsum]
    norm_num
  · have hsum : (((Dash.jaguarRows s).dropLast.filterMap Dash.BreakdownRow.percentage).sum)
        = (100 : ℚ) := by
      simp [Dash.jaguarRows]
      linarith [hsj]
    rw [hsum]
    norm_num
  · have hpie : Dash.teslaPiePercents s =
        [s.selected_tesla_dep / Dash.tesla_total s * 100,
         s.tesla_insurance / Dash.tesla_total s * 100,
         s.tesla_charging / Dash.tesla_total s * 100,
         s.tesla_refinancing / Dash.tesla_total s * 100,
         s.tesla_repairs / Dash.tesla_total s * 100] := by
      simp [Dash.teslaPiePercents, hdisp]
    rw [hpie]
    simp
    linarith [hst]

/-- Witness for C7 at the default dashboard inputs (totals 247 150 and
399 000). -/
theorem breakdown_own_total_sums_100_witness :
    Dash.tesla_total Dash.defaultInputs ≠ 0 ∧ Dash.jaguar_total Dash.defaultInputs ≠ 0
    ∧ (Dash.teslaPiePercents Dash.defaultInputs).sum = 100 := by
  have ht : Dash.tesla_total Dash.defaultInputs ≠ 0 := by
    norm_num [Dash.tesla_total, Dash.tesla_fixed, Dash.defaultInputs]
  have hj : Dash.jaguar_total Dash.defaultInputs ≠ 0 := by
    norm_num [Dash.jaguar_total, Dash.jaguar_fixed, Dash.defaultInputs]
  exact ⟨ht, hj, (breakdown_own_total_sums_100 Dash.defaultInputs ht hj).2.2.2.2.2.2.2⟩

/-- C8: swapping which vehicle is A and which is B and transposing the grid
negates every cell: `buildGrid(B, rB, A, rA, g).cell(j, i) =
-buildGrid(A, rA, B, rB, g).cell(i, j)`. -/
theorem grid_antisymmetry (A : VehicleCostProfile) (rA : ParamRange)
    (B : VehicleCostProfile) (rB : ParamRange) (g i j : ℕ) :
    buildGridCell B rB A rA g j i = - buildGridCell A rA B rB g i j := by
  simp [buildGridCell]

/-- C9: the cost computation is deterministic and stateless — a run of
`show_detailed_analysis` returns exactly the value determined by its own
arguments, independent of any earlier calls in the sequence, and
`computeTotal` on identical inputs gives identical results. -/
theorem computeTotal_stateless (pre1 pre2 : List (ℚ × ℚ)) (c : ℚ × ℚ)
    (p : VehicleCostProfile) (v : ℚ) :
    computeTotal p v = computeTotal p v
    ∧ (analysisRuns (pre1 ++ [c])).getLast? = some (Script2.show_detailed_analysis c.1 c.2)
    ∧ (analysisRuns (pre1 ++ [c])).getLast? = (analysisRuns (pre2 ++ [c])).getLast? := by
  have key : ∀ l : List (ℚ × ℚ), (analysisRuns (l ++ [c])).getLast?
      = some (Script2.show_detailed_analysis c.1 c.2) := by
    intro l
    simp [analysisRuns]
  exact ⟨rfl, key pre1, by rw [key pre1, key pre2]⟩

/-- C10: the purchase-price inputs do not interfere with any computed
quantity: changing only `jag_purchase`/`tesla_purchase` leaves every grid
cell, both totals, the difference, every breakdown percentage and every pie
percentage unchanged, and the purchase price appears only as the first table
row with percentage N/A (`none`). -/
theorem purchase_price_noninterference (s : Dash.Inputs) (jp tp : ℚ) (i j : ℕ) :
    Dash.matrixCell { s with jag_purchase := jp, tesla_purchase := tp } i j
        = Dash.matrixCell s i j
    ∧ Dash.tesla_total { s with jag_purchase := jp, tesla_purchase := tp }
        = Dash.tesla_total s
    ∧ Dash.jaguar_total { s with jag_purchase := jp, tesla_purchase := tp }
        = Dash.jaguar_total s
    ∧ Dash.difference { s with jag_purchase := jp, tesla_purchase := tp }
        = Dash.difference s
    ∧ (Dash.teslaRows { s with jag_purchase := jp, tesla_purchase := tp }).map
          Dash.BreakdownRow.percentage
        = (Dash.teslaRows s).map Dash.BreakdownRow.percentage
    ∧ (Dash.jaguarRows { s with jag_purchase := jp, tesla_purchase := tp }).map
          Dash.BreakdownRow.percentage
        = (Dash.jaguarRows s).map Dash.BreakdownRow.percentage
    ∧ Dash.teslaPiePercents { s with jag_purchase := jp, tesla_purchase := tp }
        = Dash.teslaPiePercents s
    ∧ (Dash.teslaRows s).head? = some ⟨"Purchase Price", s.tesla_purchase, none⟩
    ∧ (Dash.jaguarRows s).head? = some ⟨"Purchase Price", s.jag_purchase, none⟩ := by
  refine ⟨rfl, rfl, rfl, rfl, rfl, rfl, rfl, rfl, rfl⟩

end CarAnalytics
